import Mathlib

/-!
Verification development for the thermal-aware backpressure governor and
multi-backend inference router (app/server_monitor.py and
app/model_selector.py).

Shallow embedding conventions:
* Temperatures, times and delays are rationals (ℚ); Python floats carry no
  overflow/rounding concern in the claims treated here, which are about
  comparisons and exact linear arithmetic on small constants.
* Python strings are Lean `String`s (for status labels and messages) or
  `List Char` (for scanned payload text and command output that the code
  takes apart character by character).
* Raw command output bytes are `List Nat` (each meant as one byte).
* External effects are oracles passed as arguments: the result of one shell
  command invocation is a `CmdOut` (its stdout/stderr already decoded, as
  `_execute_command` returns them), Python's `float()` parser is a
  `List Char → Option ℚ` argument, network availability probes are
  `String → Bool` arguments, and the SSH transport's behaviour during one
  `_execute_command` call is an `ExecEnv`.
* Mutable attributes of the `ServerMonitor` / `ModelSelector` objects are
  explicit state records threaded through the functions that read or write
  them (`MonitorState`, `SshState`, the availability cache).
The embedded definitions keep the source functions' names (leading
underscores dropped) and mirror their control flow clause by clause.
-/

/-! ## Temperature thresholds and check intervals (server_monitor.py lines 17-26) -/

def CPU_TEMP_WARNING : ℚ := 70
def CPU_TEMP_CRITICAL : ℚ := 85
def GPU_TEMP_WARNING : ℚ := 75
def GPU_TEMP_CRITICAL : ℚ := 90

def NORMAL_CHECK_INTERVAL : ℚ := 5
def WARNING_CHECK_INTERVAL : ℚ := 2
def CRITICAL_CHECK_INTERVAL : ℚ := 1

/-! ## Health status (ServerMonitor._get_status, lines 662-684)
The code returns one of the Python strings "normal", "warning", "critical",
"error"; the embedding keeps them as string literals. -/

/-- Embedding of `ServerMonitor._get_status(cpu_temp, gpu_temp)`: non-positive
readings are reported as "error" before any threshold comparison; then the
critical and warning thresholds are tested inclusively. -/
def get_status (cpu_temp gpu_temp : ℚ) : String :=
  if cpu_temp ≤ 0 ∨ gpu_temp ≤ 0 then "error"
  else if cpu_temp ≥ CPU_TEMP_CRITICAL ∨ gpu_temp ≥ GPU_TEMP_CRITICAL then "critical"
  else if cpu_temp ≥ CPU_TEMP_WARNING ∨ gpu_temp ≥ GPU_TEMP_WARNING then "warning"
  else "normal"

/-- C1: `_get_status` returns "error" exactly when a reading is non-positive
(error takes precedence over every threshold comparison); on positive readings
it returns "critical" exactly when cpu ≥ 85 or gpu ≥ 90, "warning" exactly when
(below critical) cpu ≥ 70 or gpu ≥ 75, and "normal" otherwise.  The critical
comparison is inclusive: with a safe gpu, cpu = 85 is "critical" and any cpu
strictly below 85 is not. -/
theorem get_status_spec :
    (∀ cpu gpu : ℚ, (get_status cpu gpu = "error" ↔ cpu ≤ 0 ∨ gpu ≤ 0)) ∧
    (∀ cpu gpu : ℚ, 0 < cpu → 0 < gpu →
      (get_status cpu gpu = "critical" ↔ CPU_TEMP_CRITICAL ≤ cpu ∨ GPU_TEMP_CRITICAL ≤ gpu)) ∧
    (∀ cpu gpu : ℚ, 0 < cpu → 0 < gpu → cpu < CPU_TEMP_CRITICAL → gpu < GPU_TEMP_CRITICAL →
      (get_status cpu gpu = "warning" ↔ CPU_TEMP_WARNING ≤ cpu ∨ GPU_TEMP_WARNING ≤ gpu)) ∧
    (∀ cpu gpu : ℚ, 0 < cpu → 0 < gpu → cpu < CPU_TEMP_WARNING → gpu < GPU_TEMP_WARNING →
      get_status cpu gpu = "normal") ∧
    (∀ gpu : ℚ, 0 < gpu → gpu < GPU_TEMP_CRITICAL → get_status CPU_TEMP_CRITICAL gpu = "critical") ∧
    (∀ cpu gpu : ℚ, 0 < cpu → cpu < CPU_TEMP_CRITICAL → 0 < gpu → gpu < GPU_TEMP_CRITICAL →
      get_status cpu gpu ≠ "critical") := by
  refine ⟨?_, ?_, ?_, ?_, ?_, ?_⟩
  · intro cpu gpu
    unfold get_status
    split_ifs with h1 h2 h3
    · exact iff_of_true rfl h1
    · exact iff_of_false (by decide) h1
    · exact iff_of_false (by decide) h1
    · exact iff_of_false (by decide) h1
  · intro cpu gpu hc hg
    unfold get_status
    split_ifs with h1 h2 h3
    · exact absurd h1 (not_or.mpr ⟨by linarith, by linarith⟩)
    · exact iff_of_true rfl h2
    · exact iff_of_false (by decide) h2
    · exact iff_of_false (by decide) h2
  · intro cpu gpu hc hg hcc hgc
    unfold get_status
    split_ifs with h1 h2 h3
    · exact absurd h1 (not_or.mpr ⟨by linarith, by linarith⟩)
    · exact absurd h2 (not_or.mpr ⟨by linarith, by linarith⟩)
    · exact iff_of_true rfl h3
    · exact iff_of_false (by decide) h3
  · intro cpu gpu hc hg hcw hgw
    unfold get_status
    unfold CPU_TEMP_WARNING GPU_TEMP_WARNING CPU_TEMP_CRITICAL GPU_TEMP_CRITICAL at *
    split_ifs with h1 h2 h3
    · exact absurd h1 (not_or.mpr ⟨by linarith, by linarith⟩)
    · exact absurd h2 (not_or.mpr ⟨by linarith, by linarith⟩)
    · exact absurd h3 (not_or.mpr ⟨by linarith, by linarith⟩)
    · rfl
  · intro gpu hg hgc
    unfold get_status
    split_ifs with h1 h2
    · exact absurd h1 (not_or.mpr ⟨by norm_num [CPU_TEMP_CRITICAL], by linarith⟩)
    · rfl
    · exact absurd (Or.inl le_rfl) h2
    · exact absurd (Or.inl le_rfl) h2
  · intro cpu gpu hc hcc hg hgc
    unfold get_status
    split_ifs with h1 h2 h3
    · exact (by decide : "error" ≠ "critical")
    · exact absurd h2 (not_or.mpr ⟨by linarith, by linarith⟩)
    · exact (by decide : "warning" ≠ "critical")
    · exact (by decide : "normal" ≠ "critical")

/-- Witness for C1: at cpu = 85, gpu = 40 the status is "critical" (the
boundary conjunct applied at a concrete safe gpu). -/
theorem get_status_spec_witness : get_status CPU_TEMP_CRITICAL 40 = "critical" :=
  get_status_spec.2.2.2.2.1 40 (by norm_num) (by norm_num [GPU_TEMP_CRITICAL])

/-! ## Byte decoding (server_monitor.py lines 28-29 and the decode loops)
`ENCODINGS = ['utf-8', 'cp1251', 'latin1', 'ascii']`.  Raw command output is
`List Nat` (one entry per byte).  Each codec is embedded as a total function
returning `none` exactly when Python's `bytes.decode(encoding)` raises
`UnicodeDecodeError`. -/

/-- Option-valued map over a byte list: `none` as soon as one byte has no
decoding (how a strict single-byte codec behaves). -/
def optMapM (f : Nat → Option Char) : List Nat → Option (List Char)
  | [] => some []
  | b :: r =>
    match f b with
    | some c => (optMapM f r).map (fun cs => c :: cs)
    | none => none

/-- One byte in the range 0x80-0xBF, a UTF-8 continuation byte. -/
def isCont (b : Nat) : Bool := 0x80 ≤ b && b ≤ 0xBF

/-- Decode one UTF-8 scalar from the head of the stream (strict validation:
no overlong forms, no surrogates, nothing above U+10FFFF), returning the
character and the remaining bytes. -/
def utf8Step (b : Nat) (rest : List Nat) : Option (Char × List Nat) :=
  if b ≤ 0x7F then some (Char.ofNat b, rest)
  else if 0xC2 ≤ b && b ≤ 0xDF then
    match rest with
    | b2 :: r =>
      if isCont b2 then some (Char.ofNat ((b - 0xC0) * 0x40 + (b2 - 0x80)), r) else none
    | [] => none
  else if 0xE0 ≤ b && b ≤ 0xEF then
    match rest with
    | b2 :: b3 :: r =>
      let lo2 := if b == 0xE0 then 0xA0 else 0x80
      let hi2 := if b == 0xED then 0x9F else 0xBF
      if lo2 ≤ b2 && b2 ≤ hi2 && isCont b3 then
        some (Char.ofNat ((b - 0xE0) * 0x1000 + (b2 - 0x80) * 0x40 + (b3 - 0x80)), r)
      else none
    | _ => none
  else if 0xF0 ≤ b && b ≤ 0xF4 then
    match rest with
    | b2 :: b3 :: b4 :: r =>
      let lo2 := if b == 0xF0 then 0x90 else 0x80
      let hi2 := if b == 0xF4 then 0x8F else 0xBF
      if lo2 ≤ b2 && b2 ≤ hi2 && isCont b3 && isCont b4 then
        some (Char.ofNat
          ((b - 0xF0) * 0x40000 + (b2 - 0x80) * 0x1000 + (b3 - 0x80) * 0x40 + (b4 - 0x80)), r)
      else none
    | _ => none
  else none

/-- Fuel-indexed UTF-8 decoding loop; the fuel is the byte count, and
`utf8Step` consumes at least one byte per scalar, so the fuel never runs out
when started at `l.length`. -/
def utf8DecodeAux : Nat → List Nat → Option (List Char)
  | _, [] => some []
  | 0, _ :: _ => none
  | fuel + 1, b :: rest =>
    match utf8Step b rest with
    | some (c, r) => (utf8DecodeAux fuel r).map (fun cs => c :: cs)
    | none => none

/-- Embedding of `bytes.decode('utf-8')`: `none` on any invalid sequence. -/
def utf8Decode (l : List Nat) : Option (List Char) := utf8DecodeAux l.length l

/-- The cp1251 (Windows Cyrillic) high half: the Unicode code point assigned
to each byte 0x80-0xFF.  Byte 0x98 is the one unassigned byte, the only way
`bytes.decode('cp1251')` can fail. -/
def cp1251High (b : Nat) : Option Nat :=
  if 0xC0 ≤ b && b ≤ 0xFF then some (0x410 + (b - 0xC0))
  else
    match b with
    | 0x80 => some 0x402 | 0x81 => some 0x403 | 0x82 => some 0x201A | 0x83 => some 0x453
    | 0x84 => some 0x201E | 0x85 => some 0x2026 | 0x86 => some 0x2020 | 0x87 => some 0x2021
    | 0x88 => some 0x20AC | 0x89 => some 0x2030 | 0x8A => some 0x409 | 0x8B => some 0x2039
    | 0x8C => some 0x40A | 0x8D => some 0x40C | 0x8E => some 0x40B | 0x8F => some 0x40F
    | 0x90 => some 0x452 | 0x91 => some 0x2018 | 0x92 => some 0x2019 | 0x93 => some 0x201C
    | 0x94 => some 0x201D | 0x95 => some 0x2022 | 0x96 => some 0x2013 | 0x97 => some 0x2014
    | 0x98 => none       | 0x99 => some 0x2122 | 0x9A => some 0x459 | 0x9B => some 0x203A
    | 0x9C => some 0x45A | 0x9D => some 0x45C | 0x9E => some 0x45B | 0x9F => some 0x45F
    | 0xA0 => some 0xA0 | 0xA1 => some 0x40E | 0xA2 => some 0x45E | 0xA3 => some 0x408
    | 0xA4 => some 0xA4 | 0xA5 => some 0x490 | 0xA6 => some 0xA6 | 0xA7 => some 0xA7
    | 0xA8 => some 0x401 | 0xA9 => some 0xA9 | 0xAA => some 0x404 | 0xAB => some 0xAB
    | 0xAC => some 0xAC | 0xAD => some 0xAD | 0xAE => some 0xAE | 0xAF => some 0x407
    | 0xB0 => some 0xB0 | 0xB1 => some 0xB1 | 0xB2 => some 0x406 | 0xB3 => some 0x456
    | 0xB4 => some 0x491 | 0xB5 => some 0xB5 | 0xB6 => some 0xB6 | 0xB7 => some 0xB7
    | 0xB8 => some 0x451 | 0xB9 => some 0x2116 | 0xBA => some 0x454 | 0xBB => some 0xBB
    | 0xBC => some 0x458 | 0xBD => some 0x405 | 0xBE => some 0x455 | 0xBF => some 0x457
    | _ => none

/-- Embedding of `bytes.decode('cp1251')`. -/
def cp1251Decode (l : List Nat) : Option (List Char) :=
  optMapM (fun b => if b ≤ 0x7F then some (Char.ofNat b) else (cp1251High b).map Char.ofNat) l

/-- Embedding of `bytes.decode('latin1')`: every byte maps to U+00XX, so this
codec never fails. -/
def latin1Decode (l : List Nat) : List Char := l.map (fun b => Char.ofNat (b % 256))

/-- Embedding of `bytes.decode('latin1', errors='replace')`: latin1 assigns a
character to every byte, so the replacement branch never fires and the result
is plain latin1. -/
def latin1ReplaceDecode (l : List Nat) : List Char := latin1Decode l

/-- Embedding of `bytes.decode('ascii')`: fails on any byte above 0x7F. -/
def asciiDecode (l : List Nat) : Option (List Char) :=
  optMapM (fun b => if b ≤ 0x7F then some (Char.ofNat b) else none) l

/-- The codecs in the order of `ENCODINGS = ['utf-8', 'cp1251', 'latin1', 'ascii']`. -/
def encodingAttempts : List (List Nat → Option (List Char)) :=
  [utf8Decode, cp1251Decode, fun l => some (latin1Decode l), asciiDecode]

/-- The decode loop of `_execute_command` / `_execute_local_command`: walk the
encoding list; on empty data break immediately with the initial empty string;
on a successful decode break with it; on `UnicodeDecodeError` continue. -/
def decodeLoopAux : List (List Nat → Option (List Char)) → List Nat → List Char
  | [], _ => []
  | enc :: rest, data =>
    if data.isEmpty then []
    else
      match enc data with
      | some s => s
      | none => decodeLoopAux rest data

/-- The full decode sequence for one output stream: the encoding loop, then
the `if not stdout_str and stdout_data:` fallback to latin1 with replacement. -/
def decodeBytes (data : List Nat) : List Char :=
  let s := decodeLoopAux encodingAttempts data
  if s.isEmpty && !data.isEmpty then latin1ReplaceDecode data else s

def listStr (l : List Char) : String := String.mk l

def decodeBytesStr (data : List Nat) : String := listStr (decodeBytes data)

def latin1Str (data : List Nat) : String := listStr (latin1ReplaceDecode data)

/-! ## Remote command execution (ServerMonitor._execute_command, lines 106-177)
One call's interaction with the outside world is an `ExecEnv`:
* `connect0` — what `self.connect()` would return if the lazy initial connect
  is invoked (it sets `is_connected` accordingly);
* `run1` — the first `exec_command` attempt: either the raw stdout/stderr
  byte streams, or the message of the exception it raises;
* `transport_active` — the result of the liveness probe
  `get_transport() is not None and get_transport().is_active()`, with an
  exception inside the probe collapsed to `False` by the bare `except`;
* `reconnect` — what the recovery `self.connect()` would return;
* `run2` — the retried `exec_command` after a successful reconnect.
The result records the decoded output pair, the final `is_connected` flag and
instrumentation: how many recovery reconnects were attempted and how many
command retries were issued. -/

structure ExecEnv where
  connect0 : Bool
  run1 : Except String (List Nat × List Nat)
  transport_active : Bool
  reconnect : Bool
  run2 : Except String (List Nat × List Nat)

structure SshState where
  is_connected : Bool
deriving DecidableEq

structure ExecResult where
  out : String
  err : String
  st : SshState
  reconnects : Nat
  retries : Nat
deriving DecidableEq

/-- Embedding of `ServerMonitor._execute_command`.  Mirrors the source clause
by clause: the lazy initial connect; the first execution attempt with the
four-encoding decode of both streams; on an exception, the transport liveness
check; reconnect and a single retry (whose output the source decodes with
latin1-replace directly) only when the transport is dead; otherwise the error
is surfaced as the final `"Ошибка: ..."` string. -/
def execute_command (env : ExecEnv) (st : SshState) : ExecResult :=
  if !st.is_connected && !env.connect0 then
    { out := "", err := "Нет подключения к серверу", st := ⟨false⟩, reconnects := 0, retries := 0 }
  else
    match env.run1 with
    | .ok (o, e) =>
      { out := decodeBytesStr o, err := decodeBytesStr e, st := ⟨true⟩,
        reconnects := 0, retries := 0 }
    | .error msg =>
      if !env.transport_active then
        if env.reconnect then
          match env.run2 with
          | .ok (o, e) =>
            { out := latin1Str o, err := latin1Str e, st := ⟨true⟩,
              reconnects := 1, retries := 1 }
          | .error m2 =>
            { out := "", err := "Ошибка после переподключения: " ++ m2, st := ⟨true⟩,
              reconnects := 1, retries := 1 }
        else
          { out := "", err := "Ошибка: " ++ msg, st := ⟨false⟩, reconnects := 1, retries := 0 }
      else
        { out := "", err := "Ошибка: " ++ msg, st := ⟨true⟩, reconnects := 0, retries := 0 }

/-! ## Local command execution (ServerMonitor._execute_local_command, lines 179-239) -/

/-- What one `subprocess` run can do: produce the two byte streams, time out
(`subprocess.TimeoutExpired`), or raise some other exception. -/
inductive LocalRun where
  | ok (stdout stderr : List Nat)
  | timeout
  | raised (msg : String)

/-- Embedding of `ServerMonitor._execute_local_command`: the same decode loop
on success, the fixed timeout message on `TimeoutExpired`, and the
`"Ошибка: ..."` string on any other exception.  (The Windows/other branch of
the source builds the identical `Popen` call in both arms.) -/
def execute_local_command (run : LocalRun) : String × String :=
  match run with
  | .ok o e => (decodeBytesStr o, decodeBytesStr e)
  | .timeout => ("", "Превышен таймаут выполнения команды")
  | .raised msg => ("", "Ошибка: " ++ msg)

/-! ## The decode chain, characterised -/

theorem optMapM_cons_ne_nil {f : Nat → Option Char} {b : Nat} {r : List Nat}
    {cs : List Char} (h : optMapM f (b :: r) = some cs) : cs ≠ [] := by
  unfold optMapM at h
  cases hf : f b with
  | none => rw [hf] at h; exact absurd h (by simp)
  | some c =>
    rw [hf] at h
    cases hr : optMapM f r with
    | none => rw [hr] at h; exact absurd h (by simp)
    | some cs' => rw [hr] at h; simp at h; simp [← h]

theorem utf8Decode_cons_ne_nil {b : Nat} {r : List Nat} {cs : List Char}
    (h : utf8Decode (b :: r) = some cs) : cs ≠ [] := by
  unfold utf8Decode utf8DecodeAux at h
  simp only [List.length_cons] at h
  rcases hs : utf8Step b r with _ | ⟨c, r2⟩ <;> rw [hs] at h
  · exact absurd h (by simp)
  · rcases hr : utf8DecodeAux r.length r2 with _ | cs' <;> simp [hr] at h
    simp [← h]

theorem latin1Decode_cons_ne_nil (b : Nat) (r : List Nat) : latin1Decode (b :: r) ≠ [] := by
  simp [latin1Decode]

/-- The encoding loop together with its latin1-replace fallback equals the
first-success chain over utf-8, cp1251, latin1: latin1 decodes every byte
string, so the trailing 'ascii' entry and the replace fallback are never
reached. -/
theorem decodeBytes_chain (data : List Nat) :
    decodeBytes data =
      (match utf8Decode data with
       | some s => s
       | none =>
         match cp1251Decode data with
         | some s => s
         | none => latin1Decode data) := by
  cases data with
  | nil => rfl
  | cons b r =>
    cases h1 : utf8Decode (b :: r) with
    | some s =>
      have hs : s ≠ [] := utf8Decode_cons_ne_nil h1
      simp [decodeBytes, decodeLoopAux, encodingAttempts, h1, hs]
    | none =>
      cases h2 : cp1251Decode (b :: r) with
      | some s =>
        have hs : s ≠ [] := optMapM_cons_ne_nil (f := fun b =>
          if b ≤ 0x7F then some (Char.ofNat b) else (cp1251High b).map Char.ofNat)
          (by simpa [cp1251Decode] using h2)
        simp [decodeBytes, decodeLoopAux, encodingAttempts, h1, h2, hs]
      | none =>
        have hs : latin1Decode (b :: r) ≠ [] := latin1Decode_cons_ne_nil b r
        simp [decodeBytes, decodeLoopAux, encodingAttempts, h1, h2, hs, latin1ReplaceDecode]

/-- C7: the recovery protocol of `_execute_command`.  When the first execution
raises and the transport is still alive the error is surfaced as-is with no
reconnect; when the transport is dead there is exactly one reconnect attempt
and, on success, exactly one retry, whose failure yields the
reconnect-error string; no call ever makes more than one recovery reconnect
or more than one retry. -/
theorem execute_command_retry_spec :
    (∀ env st, (execute_command env st).reconnects ≤ 1 ∧ (execute_command env st).retries ≤ 1) ∧
    (∀ (msg : String) (c0 rc : Bool) (r2 : Except String (List Nat × List Nat)) (st : SshState),
      st.is_connected = true →
      execute_command ⟨c0, .error msg, true, rc, r2⟩ st =
        ⟨"", "Ошибка: " ++ msg, ⟨true⟩, 0, 0⟩) ∧
    (∀ (msg m2 : String) (c0 : Bool) (st : SshState), st.is_connected = true →
      execute_command ⟨c0, .error msg, false, true, .error m2⟩ st =
        ⟨"", "Ошибка после переподключения: " ++ m2, ⟨true⟩, 1, 1⟩) ∧
    (∀ (msg : String) (c0 : Bool) (o e : List Nat) (st : SshState), st.is_connected = true →
      execute_command ⟨c0, .error msg, false, true, .ok (o, e)⟩ st =
        ⟨latin1Str o, latin1Str e, ⟨true⟩, 1, 1⟩) ∧
    (∀ env st, env.transport_active = true → (execute_command env st).reconnects = 0) := by
  refine ⟨?_, ?_, ?_, ?_, ?_⟩
  · intro env st
    unfold execute_command
    rcases env with ⟨c0, r1, ta, rc, r2⟩
    rcases st with ⟨b⟩
    cases b <;> cases c0 <;> rcases r1 with m | ⟨o, e⟩ <;> cases ta <;> cases rc <;>
      rcases r2 with m2 | ⟨o2, e2⟩ <;> refine ⟨?_, ?_⟩ <;> simp
  · intro msg c0 rc r2 st hst
    rcases st with ⟨b⟩
    cases b
    · exact absurd hst (by simp)
    · rfl
  · intro msg m2 c0 st hst
    rcases st with ⟨b⟩
    cases b
    · exact absurd hst (by simp)
    · rfl
  · intro msg c0 o e st hst
    rcases st with ⟨b⟩
    cases b
    · exact absurd hst (by simp)
    · rfl
  · intro env st hta
    unfold execute_command
    rcases env with ⟨c0, r1, ta, rc, r2⟩
    rcases st with ⟨b⟩
    simp only at hta
    subst hta
    cases b <;> cases c0 <;> rcases r1 with m | ⟨o, e⟩ <;> rfl

/-- Witness for C7: a concrete dead-transport call where the single retry also
raises returns the reconnect-error string with exactly one reconnect and one
retry. -/
theorem execute_command_retry_spec_witness :
    execute_command ⟨true, .error "boom", false, true, .error "boom2"⟩ ⟨true⟩ =
      ⟨"", "Ошибка после переподключения: " ++ "boom2", ⟨true⟩, 1, 1⟩ :=
  execute_command_retry_spec.2.2.1 "boom" "boom2" true ⟨true⟩ rfl

/-- Concrete environment exhibiting the decoding slip of the retry path:
the first execution raises with the transport dead, the reconnect succeeds,
and the retried command outputs the two bytes 0xD0 0x90 — the UTF-8 encoding
of the Cyrillic letter А. -/
def retryEnvA : ExecEnv := ⟨true, .error "timed out", false, true, .ok ([0xD0, 0x90], [])⟩

/-- C8: the exec wrappers never propagate an exception — each failure comes
back as a (stdout, stderr) pair whose stderr describes it — and the decode
loop realises the utf-8 → cp1251 → latin1 → ascii first-success chain with
the latin1-replace terminal fallback.  But on the reconnect-retry success
path `_execute_command` decodes with latin1-replace alone (lines 172-173),
not with that chain, despite the source's own comment announcing the same
decoding logic: on the retry output b"\xd0\x90" the call returns "Ð\x90"
where the chain gives "А". -/
theorem execute_decode_divergence :
    (∀ data : List Nat, decodeBytes data =
      (match utf8Decode data with
       | some s => s
       | none =>
         match cp1251Decode data with
         | some s => s
         | none => latin1Decode data)) ∧
    execute_local_command .timeout = ("", "Превышен таймаут выполнения команды") ∧
    (∀ msg, execute_local_command (.raised msg) = ("", "Ошибка: " ++ msg)) ∧
    (∀ o e, execute_local_command (.ok o e) = (decodeBytesStr o, decodeBytesStr e)) ∧
    (∀ env, env.connect0 = false →
      execute_command env ⟨false⟩ = ⟨"", "Нет подключения к серверу", ⟨false⟩, 0, 0⟩) ∧
    (execute_command retryEnvA ⟨true⟩).out = "Ð\x90" ∧
    decodeBytesStr [0xD0, 0x90] = "А" ∧
    (execute_command retryEnvA ⟨true⟩).out ≠ decodeBytesStr [0xD0, 0x90] := by
  refine ⟨decodeBytes_chain, rfl, fun msg => rfl, fun o e => rfl, ?_, ?_, ?_, ?_⟩
  · intro env h0
    rcases env with ⟨c0, r1, ta, rc, r2⟩
    simp only at h0
    subst h0
    rfl
  · decide
  · decide
  · decide

/-! ## Python string helpers used by the temperature parsers
Scanned command output is `List Char`.  These mirror the Python `str`
operations the source applies: `strip()`, `split('\n')` / `split(':')` /
`split('=')`, whitespace `split()`, substring `in`, `isdigit()`. -/

/-- Python's whitespace for `strip()` / `split()` (the ASCII part, which is
all the probed command output can contain). -/
def pyWs (c : Char) : Bool :=
  c == ' ' || c == '\t' || c == '\n' || c == '\r' || c == '\x0b' || c == '\x0c'

/-- Embedding of `str.strip()`. -/
def pyStrip (l : List Char) : List Char :=
  ((l.dropWhile pyWs).reverse.dropWhile pyWs).reverse

/-- Split at every character satisfying `p`, keeping empty fields — the
behaviour of Python's `str.split(sep)` with an explicit separator. -/
def splitOnPred (p : Char → Bool) : List Char → List (List Char)
  | [] => [[]]
  | c :: rest =>
    let r := splitOnPred p rest
    if p c then [] :: r
    else
      match r with
      | [] => [[c]]
      | h :: t => (c :: h) :: t

/-- Embedding of `str.split(sep)` for a one-character separator. -/
def splitOnChar (sep : Char) (l : List Char) : List (List Char) :=
  splitOnPred (fun c => c == sep) l

/-- Embedding of `str.split()` with no argument: split on whitespace runs,
dropping empty fields. -/
def pySplitWs (l : List Char) : List (List Char) :=
  (splitOnPred pyWs l).filter (fun s => !s.isEmpty)

/-- Embedding of Python's substring test `pat in s`. -/
def containsSub (pat : List Char) : List Char → Bool
  | [] => pat.isEmpty
  | c :: rest => pat.isPrefixOf (c :: rest) || containsSub pat rest

/-- Embedding of `str.isdigit()` (ASCII digits, which is all that
`/sys/class/thermal` output can contain). -/
def pyIsdigit (l : List Char) : Bool := !l.isEmpty && l.all Char.isDigit

/-! ## Temperature readers (get_cpu_temperature lines 241-277,
get_gpu_temperature lines 279-328; the non-Windows fallback chains — the
`platform.system() == "Windows"` redirect at the top of each reader goes to
the separate `_get_windows_*` functions, outside these claims' scope)

A `CmdOut` is what one `_execute_command` invocation handed back (stdout and
stderr, already decoded).  `pyF` is Python's `float()` on a string: `some`
the parsed value, or `none` when it raises `ValueError`. -/

structure CmdOut where
  out : List Char
  err : List Char

structure MonitorState where
  last_check_time : ℚ
  check_interval : ℚ
  last_cpu_temp : ℚ
  last_gpu_temp : ℚ
deriving DecidableEq

/-- The parse step of `get_cpu_temperature` (lines 264-277): if the stripped
stdout is all digits and longer than 2 characters it is millidegrees, divided
by 1000; otherwise it is fed to `float()` directly.  A `ValueError` from
`float()` is the `except` branch, `none` here. -/
def cpuParse (pyF : List Char → Option ℚ) (out : List Char) : Option ℚ :=
  let t := pyStrip out
  if pyIsdigit t && decide (t.length > 2) then (pyF t).map (fun x => x / 1000)
  else pyF t

/-- The tail of `get_cpu_temperature` shared by both command slots: parse the
chosen stdout; on success store and return the value, on failure return the
last known value unchanged. -/
def cpuFinish (pyF : List Char → Option ℚ) (out : List Char) (st : MonitorState) :
    ℚ × MonitorState :=
  match cpuParse pyF out with
  | some t => (t, { st with last_cpu_temp := t })
  | none => (st.last_cpu_temp, st)

/-- Embedding of `ServerMonitor.get_cpu_temperature` (non-Windows): the
thermal-zone read, then on stderr the lm-sensors fallback, then on stderr
again the last known value; otherwise the parse step. -/
def get_cpu_temperature (pyF : List Char → Option ℚ) (c1 c2 : CmdOut) (st : MonitorState) :
    ℚ × MonitorState :=
  if !c1.err.isEmpty then
    if !c2.err.isEmpty then (st.last_cpu_temp, st)
    else cpuFinish pyF c2.out st
  else cpuFinish pyF c1.out st

/-- Step 1 of `get_gpu_temperature` (nvidia-smi, lines 290-299): guarded by
empty stderr and non-empty stripped stdout; `float(stdout.strip())`, with
`ValueError` falling through. -/
def gpuStep1 (pyF : List Char → Option ℚ) (g : CmdOut) : Option ℚ :=
  if g.err.isEmpty && !(pyStrip g.out).isEmpty then pyF (pyStrip g.out) else none

/-- Step 2 of `get_gpu_temperature` (rocm-smi, lines 301-312): guarded by
empty stderr and "Temperature" occurring in stdout; takes the first line
containing "Temperature", the field after the first ':', its first
whitespace-separated token, and `float()` of it; `IndexError`/`ValueError`
fall through. -/
def gpuStep2 (pyF : List Char → Option ℚ) (g : CmdOut) : Option ℚ :=
  if g.err.isEmpty && containsSub ("Temperature".toList) g.out then
    match ((splitOnChar '\n' g.out).filter (containsSub ("Temperature".toList))).head? with
    | none => none
    | some line =>
      match (splitOnChar ':' line).get? 1 with
      | none => none
      | some fld =>
        match (pySplitWs fld).head? with
        | none => none
        | some tok => pyF tok
  else none

/-- Step 3 of `get_gpu_temperature` (vulkaninfo, lines 314-325): guarded by
empty stderr and "deviceTemperature" in stdout; the field after '=' of the
stripped stdout, its first token, `float()` of it. -/
def gpuStep3 (pyF : List Char → Option ℚ) (g : CmdOut) : Option ℚ :=
  if g.err.isEmpty && containsSub ("deviceTemperature".toList) g.out then
    match (splitOnChar '=' (pyStrip g.out)).get? 1 with
    | none => none
    | some fld =>
      match (pySplitWs fld).head? with
      | none => none
      | some tok => pyF tok
  else none

/-- Embedding of `ServerMonitor.get_gpu_temperature` (non-Windows): the three
vendor probes in order, each updating the stored value and returning on a
successful parse; the last known value if every step fails. -/
def get_gpu_temperature (pyF : List Char → Option ℚ) (g1 g2 g3 : CmdOut) (st : MonitorState) :
    ℚ × MonitorState :=
  match gpuStep1 pyF g1 with
  | some t => (t, { st with last_gpu_temp := t })
  | none =>
    match gpuStep2 pyF g2 with
    | some t => (t, { st with last_gpu_temp := t })
    | none =>
      match gpuStep3 pyF g3 with
      | some t => (t, { st with last_gpu_temp := t })
      | none => (st.last_gpu_temp, st)

/-! ## The throttled temperature check (check_temperature, lines 619-660) -/

/-- The dictionary `check_temperature` returns. -/
structure TempSample where
  cpu_temp : ℚ
  gpu_temp : ℚ
  status : String
  cached : Bool
deriving DecidableEq

/-- The command outputs one full probing round consumes: the two CPU slots
and the three GPU slots. -/
structure ProbeEnv where
  cpu1 : CmdOut
  cpu2 : CmdOut
  gpu1 : CmdOut
  gpu2 : CmdOut
  gpu3 : CmdOut

/-- Embedding of `ServerMonitor.check_temperature(now)`: inside the throttle
window return the stored temperatures with a status recomputed from them and
`cached = true`, touching nothing; otherwise stamp the check time, probe both
readers, compute the status and set the interval used before the next check
to 1 (critical), 2 (warning) or 5 (normal/error). -/
def check_temperature (pyF : List Char → Option ℚ) (env : ProbeEnv) (now : ℚ)
    (st : MonitorState) : TempSample × MonitorState :=
  if now - st.last_check_time < st.check_interval then
    (⟨st.last_cpu_temp, st.last_gpu_temp, get_status st.last_cpu_temp st.last_gpu_temp, true⟩, st)
  else
    let st1 := { st with last_check_time := now }
    let cpuR := get_cpu_temperature pyF env.cpu1 env.cpu2 st1
    let gpuR := get_gpu_temperature pyF env.gpu1 env.gpu2 env.gpu3 cpuR.2
    let status := get_status cpuR.1 gpuR.1
    let interval :=
      if status = "critical" then CRITICAL_CHECK_INTERVAL
      else if status = "warning" then WARNING_CHECK_INTERVAL
      else NORMAL_CHECK_INTERVAL
    (⟨cpuR.1, gpuR.1, status, false⟩, { gpuR.2 with check_interval := interval })

/-! ## Pause decision (should_pause_processing, lines 704-723)
`fmt` renders a temperature the way the f-string `{x:.1f}` does; only the
shape of the message matters to the claims, never the digits. -/

/-- Embedding of `ServerMonitor.should_pause_processing`: pause only on
"critical"; on "error" log and continue (false with a reason); otherwise
false with an empty reason. -/
def should_pause_processing (fmt : ℚ → String) (pyF : List Char → Option ℚ) (env : ProbeEnv)
    (now : ℚ) (st : MonitorState) : (Bool × String) × MonitorState :=
  let r := check_temperature pyF env now st
  let info := r.1
  if info.status = "critical" then
    ((true, "Критическая температура: CPU " ++ fmt info.cpu_temp ++ "°C, GPU " ++
      fmt info.gpu_temp ++ "°C"), r.2)
  else if info.status = "error" then
    ((false, "Ошибка измерения температуры: CPU " ++ fmt info.cpu_temp ++ "°C, GPU " ++
      fmt info.gpu_temp ++ "°C"), r.2)
  else ((false, ""), r.2)

/-! ## Adaptive delay (calculate_adaptive_delay, lines 725-759) -/

/-- The CPU factor of `calculate_adaptive_delay`: 1 at or below the warning
threshold, the linear interpolation `1 + 4 * (t - warning) / (critical -
warning)` strictly above it.  The source applies no upper clamp. -/
def cpu_delay_factor (t : ℚ) : ℚ :=
  if t > CPU_TEMP_WARNING then
    1 + 4 * (t - CPU_TEMP_WARNING) / (CPU_TEMP_CRITICAL - CPU_TEMP_WARNING)
  else 1

/-- The GPU factor, same shape over the GPU thresholds. -/
def gpu_delay_factor (t : ℚ) : ℚ :=
  if t > GPU_TEMP_WARNING then
    1 + 4 * (t - GPU_TEMP_WARNING) / (GPU_TEMP_CRITICAL - GPU_TEMP_WARNING)
  else 1

/-- Embedding of `ServerMonitor.calculate_adaptive_delay`: check the
temperature, return `2 * base` on "error", otherwise `base` times the larger
of the two per-metric factors. -/
def calculate_adaptive_delay (pyF : List Char → Option ℚ) (env : ProbeEnv) (now : ℚ)
    (st : MonitorState) : ℚ × MonitorState :=
  let r := check_temperature pyF env now st
  let base_delay : ℚ := 0.5
  if r.1.status = "error" then (base_delay * 2, r.2)
  else (base_delay * max (cpu_delay_factor r.1.cpu_temp) (gpu_delay_factor r.1.gpu_temp), r.2)

/-- The delay rule as the spec sentence words it, with the multiplier clamped
to the interval [1, 5] — stated for comparison with the unclamped rule the
source implements. -/
def clamped_delay_per_spec (cpu gpu : ℚ) : ℚ :=
  (0.5 : ℚ) * min 5 (max 1 (max (cpu_delay_factor cpu) (gpu_delay_factor gpu)))

/-! ## Reader invariants -/

/-- Whatever path `get_cpu_temperature` takes, the value it returns is the
value left stored in `last_cpu_temp`, and no other state field moves. -/
theorem get_cpu_temperature_fields (pyF : List Char → Option ℚ) (c1 c2 : CmdOut)
    (st : MonitorState) :
    (get_cpu_temperature pyF c1 c2 st).2.last_cpu_temp = (get_cpu_temperature pyF c1 c2 st).1 ∧
    (get_cpu_temperature pyF c1 c2 st).2.last_gpu_temp = st.last_gpu_temp ∧
    (get_cpu_temperature pyF c1 c2 st).2.last_check_time = st.last_check_time ∧
    (get_cpu_temperature pyF c1 c2 st).2.check_interval = st.check_interval := by
  unfold get_cpu_temperature
  split_ifs with h1 h2
  · exact ⟨rfl, rfl, rfl, rfl⟩
  · unfold cpuFinish
    cases cpuParse pyF c2.out <;> exact ⟨rfl, rfl, rfl, rfl⟩
  · unfold cpuFinish
    cases cpuParse pyF c1.out <;> exact ⟨rfl, rfl, rfl, rfl⟩

/-- The same invariant for `get_gpu_temperature`. -/
theorem get_gpu_temperature_fields (pyF : List Char → Option ℚ) (g1 g2 g3 : CmdOut)
    (st : MonitorState) :
    (get_gpu_temperature pyF g1 g2 g3 st).2.last_gpu_temp = (get_gpu_temperature pyF g1 g2 g3 st).1 ∧
    (get_gpu_temperature pyF g1 g2 g3 st).2.last_cpu_temp = st.last_cpu_temp ∧
    (get_gpu_temperature pyF g1 g2 g3 st).2.last_check_time = st.last_check_time ∧
    (get_gpu_temperature pyF g1 g2 g3 st).2.check_interval = st.check_interval := by
  unfold get_gpu_temperature
  cases gpuStep1 pyF g1 with
  | some t => exact ⟨rfl, rfl, rfl, rfl⟩
  | none =>
    cases gpuStep2 pyF g2 with
    | some t => exact ⟨rfl, rfl, rfl, rfl⟩
    | none =>
      cases gpuStep3 pyF g3 with
      | some t => exact ⟨rfl, rfl, rfl, rfl⟩
      | none => exact ⟨rfl, rfl, rfl, rfl⟩

/-- C6: each reader falls back to the last known good value.  If both CPU
commands error, or the effective stdout does not parse, `get_cpu_temperature`
returns `last_cpu_temp` with the state untouched; in general it either leaves
the state untouched returning the stored value, or a parse succeeded and
exactly that value is returned and stored.  Likewise for the three-step GPU
chain. -/
theorem temperature_reader_fallback_spec :
    (∀ (pyF : List Char → Option ℚ) (c1 c2 : CmdOut) (st : MonitorState),
      ¬c1.err.isEmpty → ¬c2.err.isEmpty →
      get_cpu_temperature pyF c1 c2 st = (st.last_cpu_temp, st)) ∧
    (∀ (pyF : List Char → Option ℚ) (c1 c2 : CmdOut) (st : MonitorState),
      cpuParse pyF (if c1.err.isEmpty then c1.out else c2.out) = none →
      get_cpu_temperature pyF c1 c2 st = (st.last_cpu_temp, st)) ∧
    (∀ (pyF : List Char → Option ℚ) (c1 c2 : CmdOut) (st : MonitorState),
      get_cpu_temperature pyF c1 c2 st = (st.last_cpu_temp, st) ∨
      ∃ t, cpuParse pyF (if c1.err.isEmpty then c1.out else c2.out) = some t ∧
        get_cpu_temperature pyF c1 c2 st = (t, { st with last_cpu_temp := t })) ∧
    (∀ (pyF : List Char → Option ℚ) (g1 g2 g3 : CmdOut) (st : MonitorState),
      gpuStep1 pyF g1 = none → gpuStep2 pyF g2 = none → gpuStep3 pyF g3 = none →
      get_gpu_temperature pyF g1 g2 g3 st = (st.last_gpu_temp, st)) ∧
    (∀ (pyF : List Char → Option ℚ) (g1 g2 g3 : CmdOut) (st : MonitorState),
      get_gpu_temperature pyF g1 g2 g3 st = (st.last_gpu_temp, st) ∨
      ∃ t, (gpuStep1 pyF g1 = some t ∨ gpuStep2 pyF g2 = some t ∨ gpuStep3 pyF g3 = some t) ∧
        get_gpu_temperature pyF g1 g2 g3 st = (t, { st with last_gpu_temp := t })) := by
  refine ⟨?_, ?_, ?_, ?_, ?_⟩
  · intro pyF c1 c2 st h1 h2
    unfold get_cpu_temperature
    rw [if_pos (by simpa using h1), if_pos (by simpa using h2)]
  · intro pyF c1 c2 st hp
    unfold get_cpu_temperature
    split_ifs with h1 h2
    · rfl
    · rw [if_neg (by simpa using h1)] at hp
      unfold cpuFinish
      rw [hp]
    · rw [if_pos (by simpa using h1)] at hp
      unfold cpuFinish
      rw [hp]
  · intro pyF c1 c2 st
    by_cases h1 : c1.err.isEmpty
    · rw [if_pos h1]
      unfold get_cpu_temperature
      rw [if_neg (by simp [h1])]
      unfold cpuFinish
      cases hp : cpuParse pyF c1.out with
      | none => exact Or.inl rfl
      | some t => exact Or.inr ⟨t, rfl, rfl⟩
    · rw [if_neg h1]
      unfold get_cpu_temperature
      rw [if_pos (by simp [h1])]
      by_cases h2 : c2.err.isEmpty
      · rw [if_neg (by simp [h2])]
        unfold cpuFinish
        cases hp : cpuParse pyF c2.out with
        | none => exact Or.inl rfl
        | some t => exact Or.inr ⟨t, rfl, rfl⟩
      · rw [if_pos (by simp [h2])]
        exact Or.inl rfl
  · intro pyF g1 g2 g3 st h1 h2 h3
    unfold get_gpu_temperature
    rw [h1, h2, h3]
  · intro pyF g1 g2 g3 st
    unfold get_gpu_temperature
    cases h1 : gpuStep1 pyF g1 with
    | some t => exact Or.inr ⟨t, Or.inl rfl, rfl⟩
    | none =>
      cases h2 : gpuStep2 pyF g2 with
      | some t => exact Or.inr ⟨t, Or.inr (Or.inl rfl), rfl⟩
      | none =>
        cases h3 : gpuStep3 pyF g3 with
        | some t => exact Or.inr ⟨t, Or.inr (Or.inr rfl), rfl⟩
        | none => exact Or.inl rfl

/-- Witness for C6: with a `float()` that parses nothing and both CPU
commands erroring, the CPU reader returns the stored 42 and leaves the state
alone. -/
theorem temperature_reader_fallback_spec_witness :
    get_cpu_temperature (fun _ => none) ⟨[], ['e']⟩ ⟨[], ['e']⟩ ⟨0, 5, 42, 55⟩ =
      ((42 : ℚ), ⟨0, 5, 42, 55⟩) :=
  temperature_reader_fallback_spec.1 (fun _ => none) ⟨[], ['e']⟩ ⟨[], ['e']⟩ ⟨0, 5, 42, 55⟩
    (by decide) (by decide)

/-! ## Throttle behaviour of check_temperature -/

/-- Inside the throttle window `check_temperature` returns the stored
temperatures with a freshly recomputed status, marked cached, and touches
neither the state nor the probes (the result does not depend on `pyF` or
`env`). -/
theorem check_temperature_cached (pyF : List Char → Option ℚ) (env : ProbeEnv) (now : ℚ)
    (st : MonitorState) (h : now - st.last_check_time < st.check_interval) :
    check_temperature pyF env now st =
      (⟨st.last_cpu_temp, st.last_gpu_temp,
        get_status st.last_cpu_temp st.last_gpu_temp, true⟩, st) := by
  unfold check_temperature
  rw [if_pos h]

/-- Outside the throttle window, the returned sample is fresh (`cached =
false`), its status is recomputed from its own temperatures, the stored state
carries exactly the returned temperatures and the new check time, and the next
interval is 1/2/5 seconds by status. -/
theorem check_temperature_fresh_fields (pyF : List Char → Option ℚ) (env : ProbeEnv) (now : ℚ)
    (st : MonitorState) (h : ¬(now - st.last_check_time < st.check_interval)) :
    (check_temperature pyF env now st).1.cached = false ∧
    (check_temperature pyF env now st).1.status =
      get_status (check_temperature pyF env now st).1.cpu_temp
        (check_temperature pyF env now st).1.gpu_temp ∧
    (check_temperature pyF env now st).2.check_interval =
      (if (check_temperature pyF env now st).1.status = "critical" then CRITICAL_CHECK_INTERVAL
       else if (check_temperature pyF env now st).1.status = "warning" then WARNING_CHECK_INTERVAL
       else NORMAL_CHECK_INTERVAL) ∧
    (check_temperature pyF env now st).2.last_check_time = now ∧
    (check_temperature pyF env now st).2.last_cpu_temp =
      (check_temperature pyF env now st).1.cpu_temp ∧
    (check_temperature pyF env now st).2.last_gpu_temp =
      (check_temperature pyF env now st).1.gpu_temp := by
  have hc := get_cpu_temperature_fields pyF env.cpu1 env.cpu2 { st with last_check_time := now }
  have hg := get_gpu_temperature_fields pyF env.gpu1 env.gpu2 env.gpu3
    (get_cpu_temperature pyF env.cpu1 env.cpu2 { st with last_check_time := now }).2
  unfold check_temperature
  rw [if_neg h]
  exact ⟨rfl, rfl, rfl, hg.2.2.1.trans hc.2.2.1, hg.2.1.trans hc.1, hg.1⟩

/-- C4: calling `check_temperature` within `check_interval` of the previous
fresh call returns that call's cpu/gpu/status marked `cached = true`, without
touching the probes or the state; a fresh call stamps the time, recomputes the
status from the fresh readings and sets the interval used before the next
check to 1 s on "critical", 2 s on "warning" and 5 s otherwise. -/
theorem check_temperature_spec :
    (∀ (pyF : List Char → Option ℚ) (env : ProbeEnv) (now : ℚ) (st : MonitorState),
      now - st.last_check_time < st.check_interval →
      check_temperature pyF env now st =
        (⟨st.last_cpu_temp, st.last_gpu_temp,
          get_status st.last_cpu_temp st.last_gpu_temp, true⟩, st)) ∧
    (∀ (pyF : List Char → Option ℚ) (env : ProbeEnv) (now : ℚ) (st : MonitorState),
      ¬(now - st.last_check_time < st.check_interval) →
      (check_temperature pyF env now st).1.cached = false ∧
      (check_temperature pyF env now st).2.last_check_time = now ∧
      (check_temperature pyF env now st).1.status =
        get_status (check_temperature pyF env now st).1.cpu_temp
          (check_temperature pyF env now st).1.gpu_temp ∧
      (check_temperature pyF env now st).2.check_interval =
        (if (check_temperature pyF env now st).1.status = "critical" then CRITICAL_CHECK_INTERVAL
         else if (check_temperature pyF env now st).1.status = "warning" then WARNING_CHECK_INTERVAL
         else NORMAL_CHECK_INTERVAL)) ∧
    (∀ (pyF : List Char → Option ℚ) (env : ProbeEnv) (now : ℚ) (st : MonitorState),
      ¬(now - st.last_check_time < st.check_interval) →
      ∀ (pyF2 : List Char → Option ℚ) (env2 : ProbeEnv) (now2 : ℚ),
        now2 - (check_temperature pyF env now st).2.last_check_time <
          (check_temperature pyF env now st).2.check_interval →
        check_temperature pyF2 env2 now2 (check_temperature pyF env now st).2 =
          (⟨(check_temperature pyF env now st).1.cpu_temp,
            (check_temperature pyF env now st).1.gpu_temp,
            (check_temperature pyF env now st).1.status, true⟩,
            (check_temperature pyF env now st).2)) := by
  refine ⟨check_temperature_cached, ?_, ?_⟩
  · intro pyF env now st h
    obtain ⟨h1, h2, h3, h4, _, _⟩ := check_temperature_fresh_fields pyF env now st h
    exact ⟨h1, h4, h2, h3⟩
  · intro pyF env now st h pyF2 env2 now2 h2
    obtain ⟨_, hst, _, _, hcpu, hgpu⟩ := check_temperature_fresh_fields pyF env now st h
    rw [check_temperature_cached pyF2 env2 now2 _ h2, hcpu, hgpu, hst]

/-- Witness for C4: from the state last probed at t = 0 with interval 5 and
stored readings (60, 65), a call at t = 3 is served from the throttle window
as a cached "normal" sample. -/
theorem check_temperature_spec_witness :
    check_temperature (fun _ => none) ⟨⟨[], ['e']⟩, ⟨[], ['e']⟩, ⟨[], ['e']⟩, ⟨[], ['e']⟩, ⟨[], ['e']⟩⟩
      3 ⟨0, 5, 60, 65⟩ =
      (⟨60, 65, get_status 60 65, true⟩, ⟨0, 5, 60, 65⟩) :=
  check_temperature_spec.1 (fun _ => none)
    ⟨⟨[], ['e']⟩, ⟨[], ['e']⟩, ⟨[], ['e']⟩, ⟨[], ['e']⟩, ⟨[], ['e']⟩⟩ 3 ⟨0, 5, 60, 65⟩
    (by norm_num)

/-- C10: every sample `check_temperature` returns — cached or fresh — carries
a status equal to `_get_status` of its own cpu/gpu fields: the cached branch
recomputes the status from the stored temperatures instead of replaying a
stored status. -/
theorem check_temperature_status_consistent :
    ∀ (pyF : List Char → Option ℚ) (env : ProbeEnv) (now : ℚ) (st : MonitorState),
      (check_temperature pyF env now st).1.status =
        get_status (check_temperature pyF env now st).1.cpu_temp
          (check_temperature pyF env now st).1.gpu_temp := by
  intro pyF env now st
  by_cases h : now - st.last_check_time < st.check_interval
  · rw [check_temperature_cached pyF env now st h]
  · exact (check_temperature_fresh_fields pyF env now st h).2.1

/-! ## Pause policy and adaptive delay -/

/-- A concatenation whose left part is non-empty is non-empty. -/
theorem append_ne_empty_left (s t : String) (h : s ≠ "") : s ++ t ≠ "" := by
  intro he
  apply h
  apply String.ext
  have hd := congrArg String.data he
  simp only [String.data_append] at hd
  have h1 : s.data = [] := (List.append_eq_nil.mp hd).1
  exact h1.trans rfl

/-- A non-positive reading forces the "error" status. -/
theorem get_status_error_of_nonpos {cpu gpu : ℚ} (h : cpu ≤ 0 ∨ gpu ≤ 0) :
    get_status cpu gpu = "error" := by
  unfold get_status
  rw [if_pos h]

/-- Shared form of the status-consistency invariant. -/
theorem check_status_eq (pyF : List Char → Option ℚ) (env : ProbeEnv) (now : ℚ)
    (st : MonitorState) :
    (check_temperature pyF env now st).1.status =
      get_status (check_temperature pyF env now st).1.cpu_temp
        (check_temperature pyF env now st).1.gpu_temp := by
  by_cases h : now - st.last_check_time < st.check_interval
  · rw [check_temperature_cached pyF env now st h]
  · exact (check_temperature_fresh_fields pyF env now st h).2.1

/-- C5: `should_pause_processing` pauses exactly on "critical"; a sample with
"error" status — equivalently, a non-positive reading — yields `false`
together with a non-empty reason (logged, never pausing); "normal" and
"warning" yield `(false, "")`. -/
theorem should_pause_spec :
    ∀ (fmt : ℚ → String) (pyF : List Char → Option ℚ) (env : ProbeEnv) (now : ℚ)
      (st : MonitorState),
      ((should_pause_processing fmt pyF env now st).1.1 = true ↔
        (check_temperature pyF env now st).1.status = "critical") ∧
      ((check_temperature pyF env now st).1.status = "error" →
        (should_pause_processing fmt pyF env now st).1.1 = false ∧
        (should_pause_processing fmt pyF env now st).1.2 ≠ "") ∧
      (((check_temperature pyF env now st).1.cpu_temp ≤ 0 ∨
        (check_temperature pyF env now st).1.gpu_temp ≤ 0) →
        (should_pause_processing fmt pyF env now st).1.1 = false ∧
        (should_pause_processing fmt pyF env now st).1.2 ≠ "") ∧
      ((check_temperature pyF env now st).1.status = "normal" ∨
        (check_temperature pyF env now st).1.status = "warning" →
        (should_pause_processing fmt pyF env now st).1 = (false, "")) := by
  intro fmt pyF env now st
  have hstat := check_status_eq pyF env now st
  simp only [should_pause_processing]
  split_ifs with h1 h2
  · refine ⟨iff_of_true rfl h1, ?_, ?_, ?_⟩
    · intro herr
      exact absurd (herr ▸ h1) (by decide)
    · intro hnp
      have : (check_temperature pyF env now st).1.status = "error" :=
        hstat.trans (get_status_error_of_nonpos hnp)
      exact absurd (this ▸ h1) (by decide)
    · intro hnw
      rcases hnw with hn | hw
      · exact absurd (hn ▸ h1) (by decide)
      · exact absurd (hw ▸ h1) (by decide)
  · refine ⟨iff_of_false (by simp) (h2 ▸ (by decide)), ?_, ?_, ?_⟩
    · intro _
      exact ⟨rfl, append_ne_empty_left _ _ (append_ne_empty_left _ _
        (append_ne_empty_left _ _ (append_ne_empty_left _ _ (by decide))))⟩
    · intro _
      exact ⟨rfl, append_ne_empty_left _ _ (append_ne_empty_left _ _
        (append_ne_empty_left _ _ (append_ne_empty_left _ _ (by decide))))⟩
    · intro hnw
      rcases hnw with hn | hw
      · exact absurd (hn ▸ h2) (by decide)
      · exact absurd (hw ▸ h2) (by decide)
  · refine ⟨iff_of_false (by simp) h1, fun herr => absurd herr h2, ?_, fun _ => rfl⟩
    · intro hnp
      exact absurd (hstat.trans (get_status_error_of_nonpos hnp)) h2

/-- Witness for C5: in a state whose stored CPU reading is 0, a throttled call
reports "error" and does not pause, with a non-empty reason. -/
theorem should_pause_spec_witness :
    (should_pause_processing (fun _ => "0.0") (fun _ => none)
        ⟨⟨[], ['e']⟩, ⟨[], ['e']⟩, ⟨[], ['e']⟩, ⟨[], ['e']⟩, ⟨[], ['e']⟩⟩ 3 ⟨0, 5, 0, 50⟩).1.1
      = false ∧
    (should_pause_processing (fun _ => "0.0") (fun _ => none)
        ⟨⟨[], ['e']⟩, ⟨[], ['e']⟩, ⟨[], ['e']⟩, ⟨[], ['e']⟩, ⟨[], ['e']⟩⟩ 3 ⟨0, 5, 0, 50⟩).1.2
      ≠ "" :=
  (should_pause_spec (fun _ => "0.0") (fun _ => none)
      ⟨⟨[], ['e']⟩, ⟨[], ['e']⟩, ⟨[], ['e']⟩, ⟨[], ['e']⟩, ⟨[], ['e']⟩⟩ 3 ⟨0, 5, 0, 50⟩).2.2.1
    (by rw [check_temperature_cached _ _ _ _ (by norm_num)]; exact Or.inl (by norm_num))

/-- A `float()` oracle that parses nothing (every probe output unusable). -/
def pyF0 : List Char → Option ℚ := fun _ => none

/-- A command invocation that failed (non-empty stderr). -/
def cmdErr : CmdOut := ⟨[], ['e']⟩

def probeEnv0 : ProbeEnv := ⟨cmdErr, cmdErr, cmdErr, cmdErr, cmdErr⟩

/-- A monitor state whose stored readings are cpu = 100 °C, gpu = 50 °C, last
checked (fresh, hence "critical") at t = 0 with the 1 s critical interval. -/
def st100 : MonitorState := ⟨0, 1, 100, 50⟩

/-- Each delay factor is at least 1. -/
theorem one_le_cpu_delay_factor (t : ℚ) : 1 ≤ cpu_delay_factor t := by
  unfold cpu_delay_factor CPU_TEMP_WARNING CPU_TEMP_CRITICAL
  split_ifs with h
  · have h4 : (0 : ℚ) < 4 * (t - 70) / (85 - 70) := div_pos (by linarith) (by norm_num)
    linarith
  · exact le_refl 1

theorem one_le_gpu_delay_factor (t : ℚ) : 1 ≤ gpu_delay_factor t := by
  unfold gpu_delay_factor GPU_TEMP_WARNING GPU_TEMP_CRITICAL
  split_ifs with h
  · have h4 : (0 : ℚ) < 4 * (t - 75) / (90 - 75) := div_pos (by linarith) (by norm_num)
    linarith
  · exact le_refl 1

/-- Counterexample to C2 as stated: at the sample (cpu = 100, gpu = 50) —
status "critical", not "error" — the source computes delay 0.5 · 9 = 4.5 s,
while the claimed multiplier clamped to [1, 5] would give 0.5 · 5 = 2.5 s.
The source applies no clamp. -/
theorem adaptive_delay_clamp_counterexample :
    (calculate_adaptive_delay pyF0 probeEnv0 (1 / 2) st100).1 = 9 / 2 ∧
    clamped_delay_per_spec (check_temperature pyF0 probeEnv0 (1 / 2) st100).1.cpu_temp
      (check_temperature pyF0 probeEnv0 (1 / 2) st100).1.gpu_temp = 5 / 2 ∧
    (calculate_adaptive_delay pyF0 probeEnv0 (1 / 2) st100).1 ≠
      clamped_delay_per_spec (check_temperature pyF0 probeEnv0 (1 / 2) st100).1.cpu_temp
        (check_temperature pyF0 probeEnv0 (1 / 2) st100).1.gpu_temp := by
  have hchk : check_temperature pyF0 probeEnv0 (1 / 2) st100 = (⟨100, 50, "critical", true⟩, st100) := by
    rw [check_temperature_cached pyF0 probeEnv0 (1 / 2) st100 (by norm_num [st100])]
    have hgs : get_status 100 50 = "critical" := by
      unfold get_status
      rw [if_neg (by norm_num), if_pos (Or.inl (by norm_num [CPU_TEMP_CRITICAL]))]
    simp only [st100]
    rw [hgs]
  have hf1 : cpu_delay_factor 100 = 9 := by
    unfold cpu_delay_factor
    rw [if_pos (by norm_num [CPU_TEMP_WARNING])]
    norm_num [CPU_TEMP_WARNING, CPU_TEMP_CRITICAL]
  have hf2 : gpu_delay_factor 50 = 1 := by
    unfold gpu_delay_factor
    rw [if_neg (by norm_num [GPU_TEMP_WARNING])]
  have hd : (calculate_adaptive_delay pyF0 probeEnv0 (1 / 2) st100).1 = 9 / 2 := by
    simp only [calculate_adaptive_delay, hchk]
    rw [if_neg (by decide)]
    show (0.5 : ℚ) * max (cpu_delay_factor 100) (gpu_delay_factor 50) = 9 / 2
    have hm1 : max (9 : ℚ) 1 = 9 := max_eq_left (by norm_num)
    rw [hf1, hf2, hm1]
    norm_num
  have hcl : clamped_delay_per_spec (check_temperature pyF0 probeEnv0 (1 / 2) st100).1.cpu_temp
      (check_temperature pyF0 probeEnv0 (1 / 2) st100).1.gpu_temp = 5 / 2 := by
    rw [hchk]
    show clamped_delay_per_spec 100 50 = 5 / 2
    unfold clamped_delay_per_spec
    have hm1 : max (9 : ℚ) 1 = 9 := max_eq_left (by norm_num)
    have hm2 : max (1 : ℚ) 9 = 9 := max_eq_right (by norm_num)
    have hm3 : min (5 : ℚ) 9 = 5 := min_eq_left (by norm_num)
    rw [hf1, hf2, hm1, hm2, hm3]
    norm_num
  refine ⟨hd, hcl, ?_⟩
  rw [hd, hcl]
  norm_num

/-- C2 as amended: on a non-"error" sample the delay is 0.5 s times the
maximum of the two per-metric factors — each 1 at or below its warning
threshold and `1 + 4 (t − warning)/(critical − warning)` above it — a
multiplier that is always at least 1 but carries no upper clamp; on an
"error" sample the delay is exactly 2 · 0.5 = 1 s regardless of readings. -/
theorem calculate_adaptive_delay_spec :
    ∀ (pyF : List Char → Option ℚ) (env : ProbeEnv) (now : ℚ) (st : MonitorState),
      ((check_temperature pyF env now st).1.status = "error" →
        (calculate_adaptive_delay pyF env now st).1 = 1) ∧
      ((check_temperature pyF env now st).1.status ≠ "error" →
        (calculate_adaptive_delay pyF env now st).1 =
          (0.5 : ℚ) * max (cpu_delay_factor (check_temperature pyF env now st).1.cpu_temp)
            (gpu_delay_factor (check_temperature pyF env now st).1.gpu_temp)) ∧
      1 ≤ max (cpu_delay_factor (check_temperature pyF env now st).1.cpu_temp)
          (gpu_delay_factor (check_temperature pyF env now st).1.gpu_temp) ∧
      (∀ t : ℚ, t ≤ CPU_TEMP_WARNING → cpu_delay_factor t = 1) ∧
      (∀ t : ℚ, CPU_TEMP_WARNING < t → cpu_delay_factor t =
        1 + 4 * (t - CPU_TEMP_WARNING) / (CPU_TEMP_CRITICAL - CPU_TEMP_WARNING)) ∧
      (∀ t : ℚ, t ≤ GPU_TEMP_WARNING → gpu_delay_factor t = 1) ∧
      (∀ t : ℚ, GPU_TEMP_WARNING < t → gpu_delay_factor t =
        1 + 4 * (t - GPU_TEMP_WARNING) / (GPU_TEMP_CRITICAL - GPU_TEMP_WARNING)) := by
  intro pyF env now st
  refine ⟨?_, ?_, ?_, ?_, ?_, ?_, ?_⟩
  · intro h
    simp only [calculate_adaptive_delay]
    rw [if_pos h]
    norm_num
  · intro h
    simp only [calculate_adaptive_delay]
    rw [if_neg h]
  · exact le_trans (one_le_cpu_delay_factor _) (le_max_left _ _)
  · intro t ht
    unfold cpu_delay_factor
    rw [if_neg (by exact not_lt.mpr ht)]
  · intro t ht
    unfold cpu_delay_factor
    rw [if_pos ht]
  · intro t ht
    unfold gpu_delay_factor
    rw [if_neg (by exact not_lt.mpr ht)]
  · intro t ht
    unfold gpu_delay_factor
    rw [if_pos ht]

/-- Witness for C2 (amended): in a state whose stored CPU reading is 0 the
throttled sample has status "error" and the delay is exactly 1 s. -/
theorem calculate_adaptive_delay_spec_witness :
    (calculate_adaptive_delay pyF0 probeEnv0 3 ⟨0, 5, 0, 50⟩).1 = 1 :=
  (calculate_adaptive_delay_spec pyF0 probeEnv0 3 ⟨0, 5, 0, 50⟩).1
    (by rw [check_temperature_cached pyF0 probeEnv0 3 ⟨0, 5, 0, 50⟩ (by norm_num)]
        show get_status (0 : ℚ) 50 = "error"
        exact get_status_error_of_nonpos (Or.inl (by norm_num)))

/-! ## Regular expressions (model_selector.py, ContentClassifier)
`detect_content_type` tests fixed `re.search` patterns against the payload.
The embedding carries a small regular-expression calculus with
Brzozowski-derivative matching; `research r t` is the truth value of
`re.search(r, t)`: some substring of `t` matches `r`. -/

inductive RE where
  | eps
  | fail
  | chr (p : Char → Bool)
  | cat (a b : RE)
  | alt (a b : RE)
  | star (a : RE)

/-- Does the regex accept the empty string? -/
def RE.nullable : RE → Bool
  | .eps => true
  | .fail => false
  | .chr _ => false
  | .cat a b => a.nullable && b.nullable
  | .alt a b => a.nullable || b.nullable
  | .star _ => true

/-- Concatenation, collapsing the `fail` and `eps` units to keep derivative
terms small. -/
def RE.scat : RE → RE → RE
  | .fail, _ => .fail
  | _, .fail => .fail
  | .eps, b => b
  | a, .eps => a
  | a, b => .cat a b

/-- Alternation, collapsing `fail`. -/
def RE.salt : RE → RE → RE
  | .fail, b => b
  | a, .fail => a
  | a, b => .alt a b

/-- Brzozowski derivative: the residual language after reading `c`. -/
def RE.deriv (c : Char) : RE → RE
  | .eps => .fail
  | .fail => .fail
  | .chr p => if p c then .eps else .fail
  | .cat a b =>
    if a.nullable then RE.salt (RE.scat (a.deriv c) b) (b.deriv c)
    else RE.scat (a.deriv c) b
  | .alt a b => RE.salt (a.deriv c) (b.deriv c)
  | .star a => RE.scat (a.deriv c) (.star a)

/-- Whole-string match: fold the derivative over the text, accept if the
residual is nullable. -/
def rmatch (r : RE) (t : List Char) : Bool :=
  (t.foldl (fun r c => r.deriv c) r).nullable

/-- Any single character (`re` engine internal: used to bracket the pattern
for search semantics). -/
def reAny : RE := .chr (fun _ => true)

/-- Truth value of `re.search(r, t)`: some substring of `t` matches `r`,
i.e. the whole text matches `Σ* r Σ*`. -/
def research (r : RE) (t : List Char) : Bool :=
  rmatch (.cat (.star reAny) (.cat r (.star reAny))) t

/-- A single literal character. -/
def rchar (c : Char) : RE := .chr (fun x => x == c)

/-- A literal string. -/
def rstr (s : String) : RE := (s.toList.map rchar).foldr RE.cat .eps

/-- Concatenation of a pattern list. -/
def rcats (l : List RE) : RE := l.foldr RE.cat .eps

/-- Alternation `(p1|p2|...)`. -/
def ralts (l : List RE) : RE := l.foldr RE.alt .fail

/-- `r+`. -/
def rplus (r : RE) : RE := .cat r (.star r)

/-- `r?`. -/
def ropt (r : RE) : RE := .alt .eps r

/-- Python's `\s` (its ASCII part — `pyWs` is exactly `[ \t\n\r\x0b\x0c]`). -/
def rws : RE := .chr pyWs

/-- Python's `\w`: ASCII alphanumerics and underscore, plus the Cyrillic
block, the letters the payloads of this code base can carry. -/
def pyWordChar (c : Char) : Bool :=
  c.isAlphanum || c == '_' || (0x400 ≤ c.toNat && c.toNat ≤ 0x4FF)

def rword : RE := .chr pyWordChar

/-- Python's `.` without DOTALL: any character except a newline. -/
def rdot : RE := .chr (fun c => c != '\n')

/-- The case-swapped counterpart of a letter (ASCII and Cyrillic, enough for
the IGNORECASE patterns below). -/
def swapCase (c : Char) : Char :=
  if 'a' ≤ c ∧ c ≤ 'z' then Char.ofNat (c.toNat - 0x20)
  else if 'A' ≤ c ∧ c ≤ 'Z' then Char.ofNat (c.toNat + 0x20)
  else if 'а' ≤ c ∧ c ≤ 'я' then Char.ofNat (c.toNat - 0x20)
  else if 'А' ≤ c ∧ c ≤ 'Я' then Char.ofNat (c.toNat + 0x20)
  else if c = 'ё' then 'Ё'
  else if c = 'Ё' then 'ё'
  else c

/-- One character, case-insensitively (re.IGNORECASE). -/
def cichar (c : Char) : RE := .chr (fun x => x == c || x == swapCase c)

/-- A literal string matched case-insensitively. -/
def cistr (s : String) : RE := (s.toList.map cichar).foldr RE.cat .eps

/-! ## Content classification (ModelSelector.detect_content_type, lines 74-111) -/

def CONTENT_TYPE_GENERAL : String := "general"
def CONTENT_TYPE_CODE : String := "code"
def CONTENT_TYPE_SUMMARY : String := "summary"

/-- The `code_indicators` list, pattern for pattern:
1. `(def|class|function)\s+\w+\s*\(.*\)\s*(\{|\:)`
2. `(if|for|while)\s*\(.*\)\s*(\{|\:)`
3. `(var|let|const|int|float|double|string|bool)\s+\w+\s*=`
4. `import\s+[\w\s\{\},\.]+\s+from`
5. `#include\s+[<"].*[>"]`
6. `public\s+(static\s+)?(class|void|int|String)`
7. `<\w+(\s+\w+=".*")*>.*</\w+>` -/
def code_indicators : List RE :=
  [rcats [ralts [rstr "def", rstr "class", rstr "function"], rplus rws, rplus rword,
      .star rws, rchar '(', .star rdot, rchar ')', .star rws, ralts [rchar '{', rchar ':']],
   rcats [ralts [rstr "if", rstr "for", rstr "while"], .star rws,
      rchar '(', .star rdot, rchar ')', .star rws, ralts [rchar '{', rchar ':']],
   rcats [ralts [rstr "var", rstr "let", rstr "const", rstr "int", rstr "float",
      rstr "double", rstr "string", rstr "bool"], rplus rws, rplus rword, .star rws, rchar '='],
   rcats [rstr "import", rplus rws,
      rplus (.chr (fun c => pyWordChar c || pyWs c || c == '{' || c == '}' || c == ',' || c == '.')),
      rplus rws, rstr "from"],
   rcats [rstr "#include", rplus rws, .chr (fun c => c == '<' || c == '"'),
      .star rdot, .chr (fun c => c == '>' || c == '"')],
   rcats [rstr "public", rplus rws, ropt (.cat (rstr "static") (rplus rws)),
      ralts [rstr "class", rstr "void", rstr "int", rstr "String"]],
   rcats [rchar '<', rplus rword,
      .star (rcats [rplus rws, rplus rword, rchar '=', rchar '"', .star rdot, rchar '"']),
      rchar '>', .star rdot, rstr "</", rplus rword, rchar '>']]

/-- The `summarization_indicators` list, compiled with re.IGNORECASE:
`(summarize|summary|кратко|резюме|тезисы)` and `(TL;DR|TLDR)`. -/
def summarization_indicators : List RE :=
  [ralts [cistr "summarize", cistr "summary", cistr "кратко", cistr "резюме", cistr "тезисы"],
   ralts [cistr "TL;DR", cistr "TLDR"]]

/-- The source's `for pattern in ...: if re.search(pattern, text): return ...`
loop: does any pattern of the list hit, first match winning. -/
def firstMatch (pats : List RE) (t : List Char) : Bool :=
  match pats with
  | [] => false
  | p :: rest => if research p t then true else firstMatch rest t

/-- Embedding of `ModelSelector.detect_content_type`: code indicators first;
then, only for texts longer than 1000 characters, the summarization cues;
otherwise general. -/
def detect_content_type (t : List Char) : String :=
  if firstMatch code_indicators t then CONTENT_TYPE_CODE
  else if t.length > 1000 then
    if firstMatch summarization_indicators t then CONTENT_TYPE_SUMMARY
    else CONTENT_TYPE_GENERAL
  else CONTENT_TYPE_GENERAL

theorem firstMatch_eq_any (pats : List RE) (t : List Char) :
    firstMatch pats t = pats.any (fun p => research p t) := by
  induction pats with
  | nil => rfl
  | cons p rest ih =>
    unfold firstMatch
    by_cases h : research p t
    · simp [h]
    · simp only [Bool.not_eq_true] at h
      simp [h, ih]

set_option maxRecDepth 4000

/-- C9: `detect_content_type` is a pure function of the text realising:
any code-indicator hit (first match wins, tested before everything else)
gives "code"; otherwise texts longer than 1000 characters containing a
summarization cue (matched case-insensitively) give "summary"; everything
else is "general".  Concretely, a snippet containing `def foo():` classifies
as code and a short plain sentence as general. -/
theorem detect_content_type_spec :
    (∀ t : List Char,
      detect_content_type t =
        (if code_indicators.any (fun p => research p t) then CONTENT_TYPE_CODE
         else if t.length > 1000 ∧ summarization_indicators.any (fun p => research p t) then
           CONTENT_TYPE_SUMMARY
         else CONTENT_TYPE_GENERAL)) ∧
    detect_content_type ("def foo():".toList) = CONTENT_TYPE_CODE ∧
    detect_content_type ("Hello world.".toList) = CONTENT_TYPE_GENERAL := by
  refine ⟨?_, by decide, by decide⟩
  intro t
  unfold detect_content_type
  rw [firstMatch_eq_any, firstMatch_eq_any]
  by_cases h1 : code_indicators.any (fun p => research p t)
  · simp [h1]
  · simp only [Bool.not_eq_true] at h1
    by_cases h2 : t.length > 1000
    · by_cases h3 : summarization_indicators.any (fun p => research p t)
      · simp [h1, h2, h3]
      · simp only [Bool.not_eq_true] at h3
        simp [h1, h2, h3]
    · simp [h1, h2]

/-! ## Backend selection (ModelSelector, model_selector.py lines 113-263)
Configuration read from the environment at startup: the two priority lists,
the default model per (backend, content class), and the base URL per backend
(the three-key dicts are carried as total functions over backend names).
The availability cache is the association list the dict
`api_availability_cache` holds; `probe` is the network: whether the backend's
health endpoint answers 200 when asked (an exception during the request
counting as `false`, as the `except` branch does). -/

structure SelectorConfig where
  text_api_priority : List String
  code_api_priority : List String
  default_model : String → String → String
  api_base_url : String → String

/-- Python truthiness of an optional string argument (`None` and `""` are
falsy). -/
def truthy : Option String → Bool
  | none => false
  | some s => !(s == "")

def oget (o : Option String) : String := o.getD ""

abbrev ACache := List (String × Bool)

def cacheLookup (cache : ACache) (k : String) : Option Bool :=
  (cache.find? (fun p => p.1 == k)).map (fun p => p.2)

/-- The three backend identifiers `check_api_availability` knows how to
probe; any other name falls to the `else: is_available = False` branch. -/
def knownApi (a : String) : Bool :=
  a == "ollama" || a == "llamacpp" || a == "yandexgpt"

/-- Embedding of `ModelSelector.check_api_availability`: a cached answer is
returned as-is; otherwise the backend is probed once (unknown names are
unavailable), the boolean is cached, and the third component records that a
probe happened. -/
def check_api_availability (probe : String → Bool) (cache : ACache) (api : String) :
    Bool × ACache × Bool :=
  match cacheLookup cache api with
  | some b => (b, cache, false)
  | none =>
    let avail := knownApi api && probe api
    (avail, (api, avail) :: cache, true)

/-- The selection loop of `select_optimal_api_and_model` (lines 152-174):
walk the priority list, consult the cache or probe, and return the first
available backend with the explicit model if one was given, else the
configured default for the content class; `(none, none, none)` when the list
is exhausted.  The last component accumulates which backends were actually
probed. -/
def selectLoop (cfg : SelectorConfig) (probe : String → Bool) (ct : String)
    (pm : Option String) :
    List String → ACache → List String →
      (Option String × Option String × Option String) × ACache × List String
  | [], cache, probed => ((none, none, none), cache, probed)
  | api :: rest, cache, probed =>
    let r := check_api_availability probe cache api
    let probed2 := if r.2.2 then probed ++ [api] else probed
    if r.1 then
      ((some api, some (if truthy pm then oget pm else cfg.default_model api ct),
        some (cfg.api_base_url api)), r.2.1, probed2)
    else selectLoop cfg probe ct pm rest r.2.1 probed2

/-- The reordering step (lines 148-149): a truthy preferred backend present
in the priority list moves to the front, the relative order of the rest kept. -/
def reorderPriority (prio : List String) (pa : Option String) : List String :=
  if truthy pa && prio.contains (oget pa) then
    oget pa :: prio.filter (fun a => a != oget pa)
  else prio

/-- Embedding of `ModelSelector.select_optimal_api_and_model`: an explicit
backend together with an explicit model bypasses everything; otherwise the
text is classified, the class's priority list fetched and reordered around
the preferred backend, and the loop walks it. -/
def select_optimal_api_and_model (cfg : SelectorConfig) (probe : String → Bool)
    (cache : ACache) (text : List Char) (pa pm : Option String) :
    (Option String × Option String × Option String) × ACache × List String :=
  if truthy pa && truthy pm then
    ((pa, pm, some (cfg.api_base_url (oget pa))), cache, [])
  else
    let ct := detect_content_type text
    let prio0 := if ct = CONTENT_TYPE_CODE then cfg.code_api_priority else cfg.text_api_priority
    selectLoop cfg probe ct pm (reorderPriority prio0 pa) cache []

/-- The availability each backend would show against a fixed cache and probe:
the cached boolean if present, else the probe result (unknown names
unavailable). -/
def availOf (cache : ACache) (probe : String → Bool) (a : String) : Bool :=
  (cacheLookup cache a).getD (knownApi a && probe a)

/-- Caching a freshly probed backend changes no backend's availability: the
inserted boolean is exactly what the probe says, so later consultations agree
with a fixed availability function. -/
theorem availOf_insert (cache : ACache) (probe : String → Bool) (api : String)
    (h : cacheLookup cache api = none) (x : String) :
    availOf ((api, knownApi api && probe api) :: cache) probe x = availOf cache probe x := by
  by_cases hx : api = x
  · subst hx
    simp only [availOf, cacheLookup]
    rw [List.find?_cons_of_pos _ (by simp)]
    rw [cacheLookup] at h
    rw [h]
    rfl
  · simp only [availOf, cacheLookup]
    rw [List.find?_cons_of_neg _ (by simpa using hx)]

/-- The selection loop returns exactly the first backend of its list that is
available against the starting cache and the probe (each backend's
availability is independent of the order in which earlier ones were probed),
with the model chosen from the explicit model or the class default. -/
theorem selectLoop_find (cfg : SelectorConfig) (probe : String → Bool) (ct : String)
    (pm : Option String) :
    ∀ (l : List String) (cache : ACache) (probed : List String),
      (selectLoop cfg probe ct pm l cache probed).1 =
        (match l.find? (fun a => availOf cache probe a) with
         | some api => (some api,
             some (if truthy pm then oget pm else cfg.default_model api ct),
             some (cfg.api_base_url api))
         | none => (none, none, none)) := by
  intro l
  induction l with
  | nil => intro cache probed; rfl
  | cons api rest ih =>
    intro cache probed
    unfold selectLoop
    cases hc : cacheLookup cache api with
    | some b =>
      have havail : availOf cache probe api = b := by simp [availOf, hc]
      simp only [check_api_availability, hc]
      cases b
      · rw [List.find?_cons_of_neg _ (by simp [havail])]
        simpa using ih cache probed
      · rw [List.find?_cons_of_pos _ (by simp [havail])]
        simp
    | none =>
      have havail : availOf cache probe api = (knownApi api && probe api) := by
        simp [availOf, hc]
      simp only [check_api_availability, hc]
      have hfun : (fun a => availOf ((api, knownApi api && probe api) :: cache) probe a) =
          fun a => availOf cache probe a :=
        funext (availOf_insert cache probe api hc)
      cases hp : (knownApi api && probe api)
      · rw [List.find?_cons_of_neg _ (by simp [havail, hp])]
        rw [hp] at hfun
        simp [ih ((api, false) :: cache) (probed ++ [api]), hfun]
      · rw [List.find?_cons_of_pos _ (by simp [havail, hp])]
        simp

/-- The probed accumulator stays duplicate-free: a backend is probed only
when absent from the cache, and the probe writes it into the cache at once. -/
theorem selectLoop_probed_nodup (cfg : SelectorConfig) (probe : String → Bool) (ct : String)
    (pm : Option String) :
    ∀ (l : List String) (cache : ACache) (probed : List String),
      (∀ a ∈ probed, (cacheLookup cache a).isSome) → probed.Nodup →
      (selectLoop cfg probe ct pm l cache probed).2.2.Nodup := by
  intro l
  induction l with
  | nil => intro cache probed _ hnd; exact hnd
  | cons api rest ih =>
    intro cache probed hinv hnd
    unfold selectLoop
    cases hc : cacheLookup cache api with
    | some b =>
      simp only [check_api_availability, hc]
      cases b
      · simpa using ih cache probed hinv hnd
      · simpa using hnd
    | none =>
      simp only [check_api_availability, hc]
      have hapi : api ∉ probed := by
        intro hmem
        have := hinv api hmem
        rw [hc] at this
        exact absurd this (by simp)
      have hnd2 : (probed ++ [api]).Nodup := by
        simp [List.nodup_append, hnd, hapi]
      have hinv2 : ∀ a ∈ probed ++ [api],
          (cacheLookup ((api, knownApi api && probe api) :: cache) a).isSome := by
        intro a ha
        by_cases hax : api = a
        · subst hax
          simp only [cacheLookup]
          rw [List.find?_cons_of_pos _ (by simp)]
          rfl
        · simp only [cacheLookup]
          rw [List.find?_cons_of_neg _ (by simpa using hax)]
          rcases List.mem_append.mp ha with hmem | hmem
          · exact hinv a hmem
          · simp only [List.mem_singleton] at hmem
            exact absurd hmem.symm hax
      cases hp : (knownApi api && probe api)
      · rw [hp] at hinv2
        simpa using ih ((api, false) :: cache) (probed ++ [api]) hinv2 hnd2
      · simpa using hnd2

/-- C3: `select_optimal_api_and_model`.  With an explicit backend and an
explicit model it returns exactly that pair (with the backend's configured
base URL), touching neither cache nor network; otherwise it returns the
first backend of the reordered priority list for the detected content class
that is available per cache-or-probe, paired with the explicit model if given
and the class default otherwise, and `(none, none, none)` when no backend is
available — never an exception; and no backend is probed more than once. -/
theorem select_api_spec :
    (∀ (cfg : SelectorConfig) (probe : String → Bool) (cache : ACache) (text : List Char)
        (pa pm : Option String), truthy pa = true → truthy pm = true →
      select_optimal_api_and_model cfg probe cache text pa pm =
        ((pa, pm, some (cfg.api_base_url (oget pa))), cache, [])) ∧
    (∀ (cfg : SelectorConfig) (probe : String → Bool) (cache : ACache) (text : List Char)
        (pa pm : Option String), ¬(truthy pa = true ∧ truthy pm = true) →
      (select_optimal_api_and_model cfg probe cache text pa pm).1 =
        (match (reorderPriority
            (if detect_content_type text = CONTENT_TYPE_CODE then cfg.code_api_priority
             else cfg.text_api_priority) pa).find? (fun a => availOf cache probe a) with
         | some api => (some api,
             some (if truthy pm then oget pm
               else cfg.default_model api (detect_content_type text)),
             some (cfg.api_base_url api))
         | none => (none, none, none))) ∧
    (∀ (cfg : SelectorConfig) (probe : String → Bool) (cache : ACache) (text : List Char)
        (pa pm : Option String),
      (select_optimal_api_and_model cfg probe cache text pa pm).2.2.Nodup) := by
  refine ⟨?_, ?_, ?_⟩
  · intro cfg probe cache text pa pm hpa hpm
    unfold select_optimal_api_and_model
    rw [if_pos (by simp [hpa, hpm])]
  · intro cfg probe cache text pa pm h
    have hcond : ¬((truthy pa && truthy pm) = true) := by
      simpa [Bool.and_eq_true] using h
    simp only [select_optimal_api_and_model]
    rw [if_neg hcond]
    exact selectLoop_find cfg probe (detect_content_type text) pm _ cache []
  · intro cfg probe cache text pa pm
    unfold select_optimal_api_and_model
    split_ifs with hcond
    · exact List.nodup_nil
    · exact selectLoop_probed_nodup cfg probe (detect_content_type text) pm _ cache []
        (by intro a ha; exact absurd ha (List.not_mem_nil a)) List.nodup_nil

/-- The configuration of the spec's worked example: priority
[ollama, llamacpp, yandexgpt] for every class. -/
def selCfgW : SelectorConfig :=
  ⟨["ollama", "llamacpp", "yandexgpt"], ["ollama", "llamacpp", "yandexgpt"],
   fun _ _ => "llama3", fun _ => "http://base"⟩

/-- A cache holding ollama unavailable and llamacpp available. -/
def selCacheW : ACache := [("ollama", false), ("llamacpp", true)]

/-- Witness for C3: with ollama cached unavailable and llamacpp cached
available, selection over a short general text returns llamacpp with its
configured default model. -/
theorem select_api_spec_witness :
    (select_optimal_api_and_model selCfgW (fun _ => false) selCacheW ("Hello.".toList)
        none none).1 =
      (some "llamacpp", some "llama3", some "http://base") := by
  rw [select_api_spec.2.1 selCfgW (fun _ => false) selCacheW ("Hello.".toList) none none
    (by simp [truthy])]
  decide
